import Mathlib

/-!
# Verification of the dbcooper connection pool and safe mutation builder

This file is a shallow embedding, in Lean 4, of the connection-pool core of
the dbcooper application:

* `src-tauri/src/database/pool_manager.rs` — the `PoolManager` registry
  (`ConnectionConfig`, `ConnectionStatus`, `PoolEntry`, `create_driver`,
  `connect`, `disconnect`, `get_status`, `get_last_error`,
  `mark_disconnected`, `health_check`, `get_cached`, `get_connection`);
* `src-tauri/src/commands/pool.rs` — the command layer (`ensure_connection`,
  `reconnect`, the pooled data commands with their
  retry-once-after-reconnect policy, and the row UPDATE/DELETE/INSERT
  builders).

Effectful collaborators (the SSH tunnel bootstrapper, the per-backend driver
implementations, and the sqlite metadata store) are black boxes from the
pool's point of view; they are modelled by an explicit environment `Env`
supplying the outcome of each external call.  Asynchronous execution is
modelled by explicit state passing over a `World` record that carries the
pool map together with instrumentation counters (driver constructions,
tunnel constructions, driver-operation invocations, connect and disconnect
calls).  The `last_used : Instant` field of a pool entry is wall-clock only
and is touched by no claim, so it is omitted from the embedding.

A few helpers referenced by `commands/pool.rs` are not part of the provided
sources (`escape_sql_identifier`, `format_sql_value`,
`validate_raw_sql_value`, the per-uuid data-operation wrappers of
`PoolManager`, and the connect-lock registry); each of these is modelled
from the specification and carries a doc comment saying so.
-/

/-- The single-quote character, written via its code point. -/
def squoteChar : Char := Char.ofNat 39

/-- The double-quote character, written via its code point. -/
def dquoteChar : Char := Char.ofNat 34

/-- A one-character string holding a single quote. -/
def squote : String := String.singleton squoteChar

/-- Replace every occurrence of a character by a character sequence. -/
def replaceChar (needle : Char) (replacement : List Char) :
    List Char → List Char
  | [] => []
  | c :: rest =>
    if c = needle then replacement ++ replaceChar needle replacement rest
    else c :: replaceChar needle replacement rest

/-- Connection status enum (`pool_manager.rs`, `ConnectionStatus`). -/
inductive ConnectionStatus where
  | Connected
  | Disconnected
  | Reconnecting
deriving DecidableEq, Repr

/-- Configuration needed to create a driver (`pool_manager.rs`,
`ConnectionConfig`). -/
structure ConnectionConfig where
  db_type : String
  host : Option String
  port : Option Int
  database : Option String
  username : Option String
  password : Option String
  ssl : Option Bool
  file_path : Option String
  ssh_enabled : Bool
  ssh_host : Option String
  ssh_port : Option Int
  ssh_user : Option String
  ssh_password : Option String
  ssh_key_path : Option String
deriving DecidableEq, Repr

/-- Result of `test_connection` (`db/models.rs`, `TestConnectionResult`). -/
structure TestConnectionResult where
  success : Bool
  message : String
deriving DecidableEq, Repr

/-- An established SSH tunnel; only its local forwarding port is observable
to the pool (`ssh_tunnel.rs`, used as `tunnel.local_port`). -/
structure SshTunnel where
  local_port : Int
deriving DecidableEq, Repr

/-- `PostgresConfig` as consumed by `PostgresDriver::new` in
`pool_manager.rs`. -/
structure PostgresConfig where
  host : String
  port : Int
  database : String
  username : String
  password : String
  ssl : Bool
deriving DecidableEq, Repr

/-- `SqliteConfig` as consumed by `SqliteDriver::new`. -/
structure SqliteConfig where
  file_path : String
deriving DecidableEq, Repr

/-- `RedisConfig` as consumed by `RedisDriver::new`. -/
structure RedisConfig where
  host : String
  port : Int
  password : Option String
  db : Option Int
  tls : Bool
deriving DecidableEq, Repr

/-- Clickhouse protocol selector; `pool_manager.rs` always selects the HTTP
protocol. -/
inductive ClickhouseProtocol where
  | Http
deriving DecidableEq, Repr

/-- `ClickhouseConfig` as consumed by `ClickhouseDriver::new`. -/
structure ClickhouseConfig where
  host : String
  port : Int
  database : String
  username : String
  password : String
  protocol : ClickhouseProtocol
  ssl : Bool
deriving DecidableEq, Repr

/-- A constructed driver: the backend-specific implementations are opaque,
so a driver is identified by its family and the configuration it was built
with (`Box<dyn DatabaseDriver>` in the source). -/
inductive Driver where
  | postgres (cfg : PostgresConfig)
  | sqlite (cfg : SqliteConfig)
  | redis (cfg : RedisConfig)
  | clickhouse (cfg : ClickhouseConfig)
deriving DecidableEq, Repr

/-- Rust's `as u16` cast on an `i64`: truncation to the low 16 bits. -/
def toU16 (n : Int) : Int := n.emod 65536

/-- The environment supplying the outcome of every external call:
the SSH tunnel bootstrapper, each driver's `test_connection`, each
driver's data operations (indexed by a global invocation counter so that
successive attempts may differ), and the sqlite metadata store row for a
uuid. -/
structure Env where
  sshTunnelNew : String → Int → String → Option String → Option String →
    String → Int → Except String SshTunnel
  testConnection : Driver → Except String TestConnectionResult
  runOp : Nat → Driver → String → Except String String
  metaConfig : String → Except String ConnectionConfig

/-- `PoolManager::create_driver` (`pool_manager.rs` lines 81-168): resolve
the SSH tunnel if enabled, substitute the effective host/port, then select
the driver implementation by backend tag.  Note that the sqlite arm
returns `None` for the tunnel, discarding any tunnel that was built. -/
def create_driver (env : Env) (config : ConnectionConfig) :
    Except String (Driver × Option SshTunnel) :=
  let eff : Except String (String × Int × Option SshTunnel) :=
    if config.ssh_enabled then
      match config.ssh_host with
      | none => .error "SSH host is required"
      | some ssh_host =>
        match config.ssh_user with
        | none => .error "SSH user is required"
        | some ssh_user =>
          match config.host with
          | none => .error "Remote host is required"
          | some remote_host =>
            match env.sshTunnelNew ssh_host (toU16 (config.ssh_port.getD 22))
                ssh_user config.ssh_password config.ssh_key_path remote_host
                (toU16 (config.port.getD 5432)) with
            | .error e => .error e
            | .ok tunnel => .ok ("127.0.0.1", tunnel.local_port, some tunnel)
    else
      .ok (config.host.getD "", config.port.getD 5432, none)
  match eff with
  | .error e => .error e
  | .ok (effective_host, effective_port, ssh_tunnel) =>
    if config.db_type = "postgres" ∨ config.db_type = "postgresql" then
      .ok (.postgres
        { host := effective_host
          port := effective_port
          database := config.database.getD ""
          username := config.username.getD ""
          password := config.password.getD ""
          ssl := config.ssl.getD false }, ssh_tunnel)
    else if config.db_type = "sqlite" ∨ config.db_type = "sqlite3" then
      match config.file_path with
      | none => .error "File path is required for SQLite connections"
      | some path => .ok (.sqlite { file_path := path }, none)
    else if config.db_type = "redis" then
      .ok (.redis
        { host := effective_host
          port := effective_port
          password := config.password
          db := config.database.bind (fun d => d.toInt?)
          tls := config.ssl.getD false }, ssh_tunnel)
    else if config.db_type = "clickhouse" then
      .ok (.clickhouse
        { host := effective_host
          port := effective_port
          database := config.database.getD "default"
          username := config.username.getD "default"
          password := config.password.getD ""
          protocol := .Http
          ssl := config.ssl.getD false }, ssh_tunnel)
    else
      .error ("Unsupported database type: " ++ config.db_type)

/-- An entry in the connection pool (`pool_manager.rs`, `PoolEntry`).  The
`last_used : Instant` field is wall-clock instrumentation and is omitted. -/
structure PoolEntry where
  driver : Driver
  config : ConnectionConfig
  status : ConnectionStatus
  last_error : Option String
  ssh_tunnel : Option SshTunnel
deriving DecidableEq, Repr

/-- The pool map `HashMap<String, PoolEntry>`, embedded as an association
list keyed by the connection uuid. -/
abbrev PoolState := List (String × PoolEntry)

/-- Map lookup. -/
def PoolState.lookup (p : PoolState) (uuid : String) : Option PoolEntry :=
  match p with
  | [] => none
  | (k, e) :: rest => if k = uuid then some e else PoolState.lookup rest uuid

/-- `HashMap::remove`. -/
def PoolState.remove (p : PoolState) (uuid : String) : PoolState :=
  match p with
  | [] => []
  | (k, e) :: rest =>
    if k = uuid then PoolState.remove rest uuid
    else (k, e) :: PoolState.remove rest uuid

/-- `HashMap::insert` (insert or replace). -/
def PoolState.insert (p : PoolState) (uuid : String) (e : PoolEntry) :
    PoolState :=
  (uuid, e) :: PoolState.remove p uuid

/-- In-place mutation of the entry for a key, when present
(`pools.get_mut(uuid)` followed by field updates). -/
def PoolState.update (p : PoolState) (uuid : String)
    (f : PoolEntry → PoolEntry) : PoolState :=
  match p with
  | [] => []
  | (k, e) :: rest =>
    if k = uuid then (k, f e) :: PoolState.update rest uuid f
    else (k, e) :: PoolState.update rest uuid f

@[simp] theorem PoolState.lookup_nil (uuid : String) :
    PoolState.lookup [] uuid = none := rfl

@[simp] theorem PoolState.lookup_insert (p : PoolState) (uuid : String)
    (e : PoolEntry) : PoolState.lookup (PoolState.insert p uuid e) uuid = some e := by
  simp [PoolState.insert, PoolState.lookup]

@[simp] theorem PoolState.lookup_remove (p : PoolState) (uuid : String) :
    PoolState.lookup (PoolState.remove p uuid) uuid = none := by
  induction p with
  | nil => rfl
  | cons hd tl ih =>
    obtain ⟨k, e⟩ := hd
    by_cases hk : k = uuid <;> simp [PoolState.remove, PoolState.lookup, hk, ih]

@[simp] theorem PoolState.lookup_update (p : PoolState) (uuid : String)
    (f : PoolEntry → PoolEntry) :
    PoolState.lookup (PoolState.update p uuid f) uuid =
      (PoolState.lookup p uuid).map f := by
  induction p with
  | nil => rfl
  | cons hd tl ih =>
    obtain ⟨k, e⟩ := hd
    by_cases hk : k = uuid <;> simp [PoolState.update, PoolState.lookup, hk, ih]

theorem PoolState.update_of_lookup_none (p : PoolState) (uuid : String)
    (f : PoolEntry → PoolEntry) (h : PoolState.lookup p uuid = none) :
    PoolState.update p uuid f = p := by
  induction p with
  | nil => rfl
  | cons hd tl ih =>
    obtain ⟨k, e⟩ := hd
    by_cases hk : k = uuid
    · simp [PoolState.lookup, hk] at h
    · simp [PoolState.lookup, hk] at h
      simp [PoolState.update, hk, ih h]

/-- The observable program state: the pool map plus instrumentation
counters for the external effects (driver constructions, tunnel
constructions, driver data-operation invocations, `PoolManager::connect`
invocations, `PoolManager::disconnect` invocations). -/
structure World where
  pool : PoolState
  driverBuilds : Nat
  tunnelBuilds : Nat
  opCalls : Nat
  connectCalls : Nat
  disconnects : Nat
deriving DecidableEq, Repr

namespace PoolManager

/-- `PoolManager::connect` (`pool_manager.rs` lines 191-241): mark any
existing entry `Reconnecting`, build a driver (and possibly a tunnel), run
`test_connection`, store the entry with `Connected`/`Disconnected` status,
and return the driver on success or the test failure message on failure.
A `create_driver` or `test_connection` error propagates before any entry
is stored. -/
def connect (env : Env) (w : World) (uuid : String)
    (config : ConnectionConfig) : World × Except String Driver :=
  let pool0 := PoolState.update w.pool uuid
    (fun e => { e with status := ConnectionStatus.Reconnecting })
  let w0 := { w with pool := pool0, connectCalls := w.connectCalls + 1 }
  match create_driver env config with
  | .error e => (w0, .error e)
  | .ok (driver, ssh_tunnel) =>
    let w1 := { w0 with
      driverBuilds := w0.driverBuilds + 1,
      tunnelBuilds := w0.tunnelBuilds + (if ssh_tunnel.isSome then 1 else 0) }
    match env.testConnection driver with
    | .error e => (w1, .error e)
    | .ok test_result =>
      let status := if test_result.success then ConnectionStatus.Connected
        else ConnectionStatus.Disconnected
      let entry : PoolEntry :=
        { driver := driver
          config := config
          status := status
          last_error := if test_result.success then none
            else some test_result.message
          ssh_tunnel := ssh_tunnel }
      let w2 := { w1 with pool := PoolState.insert w1.pool uuid entry }
      if test_result.success then (w2, .ok driver)
      else (w2, .error test_result.message)

/-- `PoolManager::disconnect`: remove the entry entirely. -/
def disconnect (w : World) (uuid : String) : World :=
  { w with
    pool := PoolState.remove w.pool uuid,
    disconnects := w.disconnects + 1 }

/-- `PoolManager::get_status`: status of the entry, `Disconnected` when
absent. -/
def get_status (p : PoolState) (uuid : String) : ConnectionStatus :=
  ((PoolState.lookup p uuid).map (fun e => e.status)).getD
    ConnectionStatus.Disconnected

/-- `PoolManager::get_last_error`. -/
def get_last_error (p : PoolState) (uuid : String) : Option String :=
  (PoolState.lookup p uuid).bind (fun e => e.last_error)

/-- `PoolManager::get_cached`: the cached driver handle if an entry exists,
regardless of its status. -/
def get_cached (p : PoolState) (uuid : String) : Option Driver :=
  (PoolState.lookup p uuid).map (fun e => e.driver)

/-- `PoolManager::mark_disconnected`. -/
def mark_disconnected (p : PoolState) (uuid : String)
    (error : Option String) : PoolState :=
  PoolState.update p uuid (fun e =>
    { e with status := ConnectionStatus.Disconnected, last_error := error })

/-- `PoolManager::health_check` (`pool_manager.rs` lines 282-316): re-run
`test_connection` on the cached driver and fold the outcome back into the
entry; with no entry, report a synthetic not-found failure. -/
def health_check (env : Env) (w : World) (uuid : String) :
    World × Except String TestConnectionResult :=
  match get_cached w.pool uuid with
  | some driver =>
    match env.testConnection driver with
    | .error e => (w, .error e)
    | .ok result =>
      let pool2 := PoolState.update w.pool uuid (fun e =>
        { e with
          status := if result.success then ConnectionStatus.Connected
            else ConnectionStatus.Disconnected,
          last_error := if result.success then none
            else some result.message })
      ({ w with pool := pool2 }, .ok result)
  | none => (w, .ok { success := false, message := "Connection not found" })

/-- `PoolManager::get_connection` (get-or-create): return the driver of a
`Connected` entry without touching the network, otherwise `connect`. -/
def get_connection (env : Env) (w : World) (uuid : String)
    (config : ConnectionConfig) : World × Except String Driver :=
  match PoolState.lookup w.pool uuid with
  | some entry =>
    if entry.status = ConnectionStatus.Connected then (w, .ok entry.driver)
    else connect env w uuid config
  | none => connect env w uuid config

/-- Modelled from the spec: the per-uuid data-operation wrappers of
`PoolManager` (`list_tables(&uuid)`, `execute_query(&uuid, q)`, ... as
called from `commands/pool.rs`) are not part of the provided sources.
Per spec section 4.5 the operation is attempted against the cached driver,
and per sections 4.4/8 a failed operation leaves the identifier
`Disconnected` with the error recorded (`mark_disconnected`, whose own doc
comment in `pool_manager.rs` reads "e.g., after an error").  The operation
itself is abstract: `op` is its descriptor (for `execute_query` the query
text) and the environment decides each invocation's outcome. -/
def runOperation (env : Env) (w : World) (uuid : String) (op : String) :
    World × Except String String :=
  match get_cached w.pool uuid with
  | none => (w, .error "Connection not found")
  | some driver =>
    let w1 := { w with opCalls := w.opCalls + 1 }
    match env.runOp w.opCalls driver op with
    | .ok r => (w1, .ok r)
    | .error e =>
      ({ w1 with pool := mark_disconnected w1.pool uuid (some e) }, .error e)

end PoolManager

/-- `get_connection_config` (`commands/pool.rs` lines 109-152): fetch the
connection row for a uuid from the metadata store and turn it into a
`ConnectionConfig`; a fetch failure is wrapped in a
"Failed to get connection" message. -/
def get_connection_config (env : Env) (uuid : String) :
    Except String ConnectionConfig :=
  match env.metaConfig uuid with
  | .ok c => .ok c
  | .error e => .error ("Failed to get connection: " ++ e)

/-- The body of `ensure_connection` (`commands/pool.rs` lines 155-172),
the part executed under the per-uuid connect lock: if a cached entry
exists (whatever its status), do nothing; otherwise fetch the config and
connect. -/
def ensureBody (env : Env) (w : World) (uuid : String) :
    World × Except String Unit :=
  if (PoolManager.get_cached w.pool uuid).isSome then (w, .ok ())
  else
    match get_connection_config env uuid with
    | .error e => (w, .error e)
    | .ok config =>
      match PoolManager.connect env w uuid config with
      | (w2, .ok _) => (w2, .ok ())
      | (w2, .error e) => (w2, .error e)

/-- `ensure_connection` as executed by a single task.  The per-uuid connect
lock (whose registry is not part of the provided sources and is modelled
from the spec in the concurrent semantics below) is invisible to a lone
sequential caller, so here it is elided. -/
def ensure_connection (env : Env) (w : World) (uuid : String) :
    World × Except String Unit :=
  ensureBody env w uuid

/-- `reconnect` (`commands/pool.rs` lines 175-190): under the connect lock,
unconditionally disconnect the stale entry, then fetch the config and
connect afresh. -/
def reconnect (env : Env) (w : World) (uuid : String) :
    World × Except String Unit :=
  let w1 := PoolManager.disconnect w uuid
  match get_connection_config env uuid with
  | .error e => (w1, .error e)
  | .ok config =>
    match PoolManager.connect env w1 uuid config with
    | (w2, .ok _) => (w2, .ok ())
    | (w2, .error e) => (w2, .error e)

/-- The retry-once template shared verbatim by every pooled data command in
`commands/pool.rs` (`pool_list_tables`, `pool_get_table_data`,
`pool_get_table_structure`, `pool_execute_query`,
`pool_get_schema_overview`, and the execution step of the row mutation
commands): ensure connected, attempt the operation, and on failure
reconnect and retry the same operation exactly once, propagating the
second outcome. -/
def pooledCommand (env : Env) (w : World) (uuid : String) (op : String) :
    World × Except String String :=
  match ensure_connection env w uuid with
  | (w1, .error e) => (w1, .error e)
  | (w1, .ok _) =>
    match PoolManager.runOperation env w1 uuid op with
    | (w2, .ok r) => (w2, .ok r)
    | (w2, .error _) =>
      match reconnect env w2 uuid with
      | (w3, .error e) => (w3, .error e)
      | (w3, .ok _) => PoolManager.runOperation env w3 uuid op

/-- `pool_list_tables` (`commands/pool.rs` lines 193-215). -/
def pool_list_tables (env : Env) (w : World) (uuid : String) :
    World × Except String String :=
  pooledCommand env w uuid "list_tables"

/-- `pool_execute_query` (`commands/pool.rs` lines 282-301). -/
def pool_execute_query (env : Env) (w : World) (uuid query : String) :
    World × Except String String :=
  pooledCommand env w uuid query

/-- A JSON value as received by the row mutation commands
(`serde_json::Value`); the typed value formatter of the spec covers null,
booleans, numbers and strings, which is all the mutation claims use. -/
inductive Json where
  | null
  | bool (b : Bool)
  | num (n : Int)
  | str (s : String)
deriving DecidableEq, Repr

/-- Modelled from the spec: `escape_sql_identifier` is referenced from
`commands/pool.rs` but absent from the provided sources.  Section 4.6:
neutralize characters that could terminate a quoted identifier before
formatting into a double-quoted segment — a double quote inside the
identifier is doubled. -/
def escape_sql_identifier (s : String) : String :=
  String.mk (replaceChar dquoteChar [dquoteChar, dquoteChar] s.data)

/-- Modelled from the spec: `format_sql_value` is referenced from
`commands/pool.rs` but absent from the provided sources.  Section 4.6:
null becomes the NULL literal, a string becomes a quoted literal with the
single quote escaped by doubling, numbers and booleans become literal
tokens. -/
def format_sql_value (v : Json) : String :=
  match v with
  | .null => "NULL"
  | .bool b => if b then "TRUE" else "FALSE"
  | .num n => toString n
  | .str s =>
    squote ++ String.mk (replaceChar squoteChar [squoteChar, squoteChar] s.data)
      ++ squote

/-- Modelled from the spec: `validate_raw_sql_value` is referenced from
`commands/pool.rs` but absent from the provided sources.  Section 4.6: a
raw fragment is passed through a validator that rejects
statement-terminating or multi-statement patterns before being spliced in
verbatim. -/
def validate_raw_sql_value (value : String) (_db_type : String) :
    Except String Unit :=
  if value.data.contains (Char.ofNat 59) then
    .error "Statement terminator is not allowed in raw SQL values"
  else
    .ok ()

/-- One element of the `updates`/`values` array of the row mutation
commands: a JSON object with `column`, `value` and optional `isRawSql`
fields. -/
structure UpdateField where
  column : String
  value : Json
  isRawSql : Bool
deriving DecidableEq, Repr

/-- Table addressing (`commands/pool.rs` lines 362-370): single-segment
quoted name for sqlite, schema-qualified otherwise. -/
def table_ref (db_type schema table : String) : String :=
  if db_type = "sqlite" ∨ db_type = "sqlite3" then
    "\"" ++ escape_sql_identifier table ++ "\""
  else
    "\"" ++ escape_sql_identifier schema ++ "\".\"" ++
      escape_sql_identifier table ++ "\""

/-- Formatting of one SET/VALUES element (`commands/pool.rs` lines
375-397): a raw-SQL-flagged value must be a string and pass validation and
is then spliced verbatim; otherwise the typed formatter is used. -/
def formatFieldValue (db_type : String) (u : UpdateField) :
    Except String String :=
  if u.isRawSql then
    match u.value with
    | .str raw =>
      match validate_raw_sql_value raw db_type with
      | .error e => .error ("Invalid raw SQL value: " ++ e)
      | .ok _ => .ok raw
    | _ => .error "Raw SQL value must be a string"
  else
    .ok (format_sql_value u.value)

/-- The sequential construction of the SET fragments. -/
def buildSetParts (db_type : String) (updates : List UpdateField) :
    Except String (List String) :=
  match updates with
  | [] => .ok []
  | u :: rest =>
    match formatFieldValue db_type u with
    | .error e => .error e
    | .ok v =>
      match buildSetParts db_type rest with
      | .error e => .error e
      | .ok vs =>
        .ok (("\"" ++ escape_sql_identifier u.column ++ "\" = " ++ v) :: vs)

/-- The WHERE clause of the row update/delete commands (`commands/pool.rs`
lines 409-417 and 476-484): AND-joined exact-match predicates over the
zipped primary-key column/value pairs. -/
def buildWhereClause (pk_columns : List String) (pk_values : List Json) :
    String :=
  String.intercalate " AND "
    ((pk_columns.zip pk_values).map (fun cv =>
      "\"" ++ escape_sql_identifier cv.1 ++ "\" = " ++ format_sql_value cv.2))

/-- The pure SQL-text construction of `pool_update_table_row`
(`commands/pool.rs` lines 361-422), after the primary-key and
non-emptiness validations have passed. -/
def buildUpdateQuery (db_type schema table : String)
    (pk_columns : List String) (pk_values : List Json)
    (updates : List UpdateField) : Except String String :=
  match buildSetParts db_type updates with
  | .error e => .error e
  | .ok set_parts =>
    .ok ("UPDATE " ++ table_ref db_type schema table ++ " SET " ++
      String.intercalate ", " set_parts ++ " WHERE " ++
      buildWhereClause pk_columns pk_values)

/-- `pool_update_table_row` (`commands/pool.rs` lines 332-437): validate
the primary key and the updates list, fetch the connection row for its
backend kind, build the UPDATE text, then execute it through the pooled
retry-once template. -/
def pool_update_table_row (env : Env) (w : World)
    (uuid schema table : String) (pk_columns : List String)
    (pk_values : List Json) (updates : List UpdateField) :
    World × Except String String :=
  if pk_columns.isEmpty ∨ pk_columns.length ≠ pk_values.length then
    (w, .error "Primary key columns and values must match")
  else if updates.isEmpty then
    (w, .error "No updates provided")
  else
    match get_connection_config env uuid with
    | .error e => (w, .error e)
    | .ok conn =>
      match buildUpdateQuery conn.db_type schema table pk_columns pk_values
          updates with
      | .error e => (w, .error e)
      | .ok query => pooledCommand env w uuid query

/-- `pool_delete_table_row` (`commands/pool.rs` lines 441-501): validate
the primary key, fetch the backend kind, build the DELETE text, then
execute it through the pooled retry-once template. -/
def pool_delete_table_row (env : Env) (w : World)
    (uuid schema table : String) (pk_columns : List String)
    (pk_values : List Json) : World × Except String String :=
  if pk_columns.isEmpty ∨ pk_columns.length ≠ pk_values.length then
    (w, .error "Primary key columns and values must match")
  else
    match get_connection_config env uuid with
    | .error e => (w, .error e)
    | .ok conn =>
      let query := "DELETE FROM " ++ table_ref conn.db_type schema table ++
        " WHERE " ++ buildWhereClause pk_columns pk_values
      pooledCommand env w uuid query

/-- The pure SQL-text construction of `pool_insert_table_row`
(`commands/pool.rs` lines 505-592). -/
def buildInsertQuery (db_type schema table : String)
    (values : List UpdateField) : Except String String :=
  match values.mapM (formatFieldValue db_type) with
  | .error e => .error e
  | .ok parts =>
    .ok ("INSERT INTO " ++ table_ref db_type schema table ++ " (" ++
      String.intercalate ", " (values.map (fun u =>
        "\"" ++ escape_sql_identifier u.column ++ "\"")) ++ ") VALUES (" ++
      String.intercalate ", " parts ++ ")")

/-- `pool_insert_table_row` (`commands/pool.rs` lines 505-592). -/
def pool_insert_table_row (env : Env) (w : World)
    (uuid schema table : String) (values : List UpdateField) :
    World × Except String String :=
  if values.isEmpty then
    (w, .error "No values provided")
  else
    match get_connection_config env uuid with
    | .error e => (w, .error e)
    | .ok conn =>
      match buildInsertQuery conn.db_type schema table values with
      | .error e => (w, .error e)
      | .ok query => pooledCommand env w uuid query

/-- Program counter of one task executing `ensure_connection`:
`start` (before acquiring the connect lock), `critical` (holding the
lock, about to run the locked body), `done`. -/
inductive TaskPc where
  | start
  | critical
  | done
deriving DecidableEq, Repr

/-- Modelled from the spec: the per-identifier connect-lock registry
(`PoolManager::get_connect_lock`, called from `commands/pool.rs`) is not
part of the provided sources.  Per spec section 3 it is one exclusive lock
per connection identifier, serializing connect/reconnect attempts.  This
is the shared state of two concurrent tasks racing to run
`ensure_connection` for the same identifier: the world, the
identifier's lock, and each task's program counter. -/
structure ConcState where
  world : World
  lockFree : Bool
  pc0 : TaskPc
  pc1 : TaskPc
deriving DecidableEq, Repr

/-- One scheduler step giving task `i` (false = task 0, true = task 1) a
chance to run: a task at `start` acquires the lock when it is free
(otherwise it stays blocked), a task holding the lock runs the locked body
of `ensure_connection` and releases the lock, a finished task does
nothing.  The locked body is atomic here because every conflicting
connect/reconnect path runs under the same per-identifier lock. -/
def stepTask (env : Env) (uuid : String) (s : ConcState) (i : Bool) :
    ConcState :=
  match (if i then s.pc1 else s.pc0) with
  | .start =>
    if s.lockFree then
      if i then { s with lockFree := false, pc1 := .critical }
      else { s with lockFree := false, pc0 := .critical }
    else s
  | .critical =>
    let w2 := (ensureBody env s.world uuid).1
    if i then { s with world := w2, lockFree := true, pc1 := .done }
    else { s with world := w2, lockFree := true, pc0 := .done }
  | .done => s

/-- Run an arbitrary finite interleaving of the two tasks. -/
def runSchedule (env : Env) (uuid : String) (s : ConcState) :
    List Bool → ConcState
  | [] => s
  | i :: rest => runSchedule env uuid (stepTask env uuid s i) rest

/-- A configuration with the given backend tag, SSH disabled, and every
optional field absent. -/
def blankConfig (t : String) : ConnectionConfig :=
  { db_type := t
    host := none
    port := none
    database := none
    username := none
    password := none
    ssl := none
    file_path := none
    ssh_enabled := false
    ssh_host := none
    ssh_port := none
    ssh_user := none
    ssh_password := none
    ssh_key_path := none }

/-- A concrete sqlite configuration used by the witness environments. -/
def sqliteCfg : ConnectionConfig :=
  { blankConfig "sqlite" with file_path := some "/tmp/test.db" }

/-- Witness environment: connections verify successfully, every data
operation fails, the metadata store returns `sqliteCfg`. -/
def envTriv : Env :=
  { sshTunnelNew := fun _ _ _ _ _ _ _ => .error "no ssh"
    testConnection := fun _ => .ok { success := true, message := "ok" }
    runOp := fun _ _ _ => .error "boom"
    metaConfig := fun _ => .ok sqliteCfg }

/-- Witness environment: driver construction works but the new driver's
`test_connection` reports failure. -/
def envTestFail : Env :=
  { sshTunnelNew := fun _ _ _ _ _ _ _ => .error "no ssh"
    testConnection := fun _ => .ok { success := false, message := "auth failed" }
    runOp := fun _ _ _ => .error "boom"
    metaConfig := fun _ => .ok sqliteCfg }

/-- Witness environment: the SSH bootstrapper succeeds with local port
15432. -/
def envSsh : Env :=
  { sshTunnelNew := fun _ _ _ _ _ _ _ => .ok { local_port := 15432 }
    testConnection := fun _ => .ok { success := true, message := "ok" }
    runOp := fun _ _ _ => .ok "rows"
    metaConfig := fun _ => .ok sqliteCfg }

/-- The empty initial world. -/
def world0 : World :=
  { pool := []
    driverBuilds := 0
    tunnelBuilds := 0
    opCalls := 0
    connectCalls := 0
    disconnects := 0 }

/-! ## Basic lemmas about the pool operations -/

theorem get_status_mark_disconnected (p : PoolState) (uuid : String)
    (err : Option String) :
    PoolManager.get_status (PoolManager.mark_disconnected p uuid err) uuid =
      ConnectionStatus.Disconnected := by
  unfold PoolManager.get_status PoolManager.mark_disconnected
  rw [PoolState.lookup_update]
  cases PoolState.lookup p uuid <;> simp

theorem connect_counters (env : Env) (w : World) (uuid : String)
    (config : ConnectionConfig) :
    (PoolManager.connect env w uuid config).1.connectCalls =
        w.connectCalls + 1 ∧
      (PoolManager.connect env w uuid config).1.disconnects = w.disconnects ∧
      (PoolManager.connect env w uuid config).1.opCalls = w.opCalls := by
  unfold PoolManager.connect
  cases hc : create_driver env config with
  | error e => simp [hc]
  | ok pr =>
    obtain ⟨d, t⟩ := pr
    cases ht : env.testConnection d with
    | error e => simp [hc, ht]
    | ok tr => by_cases hs : tr.success <;> simp [hc, ht, hs]

theorem connect_ok_status (env : Env) (w : World) (uuid : String)
    (config : ConnectionConfig) (d : Driver)
    (h : (PoolManager.connect env w uuid config).2 = .ok d) :
    PoolManager.get_status (PoolManager.connect env w uuid config).1.pool
        uuid = ConnectionStatus.Connected ∧
      PoolManager.get_cached (PoolManager.connect env w uuid config).1.pool
        uuid = some d := by
  unfold PoolManager.connect at h ⊢
  cases hc : create_driver env config with
  | error e => simp [hc] at h
  | ok pr =>
    obtain ⟨d0, t⟩ := pr
    simp only [hc] at h ⊢
    cases ht : env.testConnection d0 with
    | error e => simp [ht] at h
    | ok tr =>
      simp only [ht] at h ⊢
      by_cases hs : tr.success
      · simp only [hs, if_true] at h ⊢
        simp at h
        subst h
        simp [PoolManager.get_status, PoolManager.get_cached]
      · simp [hs] at h

theorem connect_test_failed (env : Env) (w : World) (uuid : String)
    (config : ConnectionConfig) (d : Driver) (otun : Option SshTunnel)
    (msg : String) (hc : create_driver env config = .ok (d, otun))
    (ht : env.testConnection d = .ok { success := false, message := msg }) :
    (PoolManager.connect env w uuid config).2 = .error msg ∧
      PoolState.lookup (PoolManager.connect env w uuid config).1.pool uuid =
        some { driver := d, config := config,
               status := ConnectionStatus.Disconnected,
               last_error := some msg, ssh_tunnel := otun } := by
  unfold PoolManager.connect
  simp [hc, ht]

theorem connect_fresh_success (env : Env) (w : World) (uuid : String)
    (config : ConnectionConfig) (d : Driver) (otun : Option SshTunnel)
    (msg : String) (hc : create_driver env config = .ok (d, otun))
    (ht : env.testConnection d = .ok { success := true, message := msg })
    (hl : PoolState.lookup w.pool uuid = none) :
    PoolManager.connect env w uuid config =
      ({ pool := PoolState.insert w.pool uuid
           { driver := d, config := config,
             status := ConnectionStatus.Connected, last_error := none,
             ssh_tunnel := otun }
         driverBuilds := w.driverBuilds + 1
         tunnelBuilds := w.tunnelBuilds + (if otun.isSome then 1 else 0)
         opCalls := w.opCalls
         connectCalls := w.connectCalls + 1
         disconnects := w.disconnects }, .ok d) := by
  unfold PoolManager.connect
  rw [PoolState.update_of_lookup_none w.pool uuid _ hl]
  simp [hc, ht]

theorem ensure_ok_cached (env : Env) (w : World) (uuid : String) (w1 : World)
    (h : ensure_connection env w uuid = (w1, .ok ())) :
    (PoolManager.get_cached w1.pool uuid).isSome = true := by
  unfold ensure_connection ensureBody at h
  by_cases hcached : (PoolManager.get_cached w.pool uuid).isSome
  · simp only [hcached, if_true] at h
    simp only [Prod.mk.injEq] at h
    rw [← h.1]
    exact hcached
  · simp only [hcached, if_false, Bool.false_eq_true] at h
    cases hg : get_connection_config env uuid with
    | error e => simp [hg] at h
    | ok config =>
      simp only [hg] at h
      cases hconn : PoolManager.connect env w uuid config with
      | mk w2 r =>
        cases r with
        | error e => simp [hconn] at h
        | ok d =>
          simp only [hconn, Prod.mk.injEq] at h
          rw [← h.1]
          have := connect_ok_status env w uuid config d (by rw [hconn])
          rw [hconn] at this
          simp [PoolManager.get_cached] at this
          obtain ⟨a, ha, -⟩ := this.2
          simp [PoolManager.get_cached, ha]

theorem reconnect_ok (env : Env) (w : World) (uuid : String) (w3 : World)
    (h : reconnect env w uuid = (w3, .ok ())) :
    (PoolManager.get_cached w3.pool uuid).isSome = true ∧
      PoolManager.get_status w3.pool uuid = ConnectionStatus.Connected ∧
      w3.connectCalls = w.connectCalls + 1 ∧
      w3.disconnects = w.disconnects + 1 ∧
      w3.opCalls = w.opCalls := by
  unfold reconnect at h
  cases hg : get_connection_config env uuid with
  | error e => simp [hg] at h
  | ok config =>
    simp only [hg] at h
    cases hconn : PoolManager.connect env (PoolManager.disconnect w uuid)
        uuid config with
    | mk w2 r =>
      cases r with
      | error e => simp [hconn] at h
      | ok d =>
        simp only [hconn, Prod.mk.injEq] at h
        rw [← h.1]
        have hst := connect_ok_status env (PoolManager.disconnect w uuid)
          uuid config d (by rw [hconn])
        rw [hconn] at hst
        have hcnt := connect_counters env (PoolManager.disconnect w uuid)
          uuid config
        rw [hconn] at hcnt
        refine ⟨?_, hst.1, ?_, ?_, ?_⟩
        · simp [PoolManager.get_cached] at hst
          obtain ⟨a, ha, -⟩ := hst.2
          simp [PoolManager.get_cached, ha]
        · rw [hcnt.1]; simp [PoolManager.disconnect]
        · rw [hcnt.2.1]; simp [PoolManager.disconnect]
        · rw [hcnt.2.2]; simp [PoolManager.disconnect]

theorem runOperation_error (env : Env) (w : World) (uuid op : String)
    (w2 : World) (e : String)
    (hcached : (PoolManager.get_cached w.pool uuid).isSome = true)
    (h : PoolManager.runOperation env w uuid op = (w2, .error e)) :
    w2.opCalls = w.opCalls + 1 ∧
      w2.connectCalls = w.connectCalls ∧
      w2.disconnects = w.disconnects ∧
      PoolManager.get_status w2.pool uuid = ConnectionStatus.Disconnected := by
  unfold PoolManager.runOperation at h
  cases hg : PoolManager.get_cached w.pool uuid with
  | none => rw [hg] at hcached; simp at hcached
  | some d =>
    simp only [hg] at h
    cases hr : env.runOp w.opCalls d op with
    | ok r => simp [hr] at h
    | error e0 =>
      simp only [hr, Prod.mk.injEq] at h
      rw [← h.1]
      exact ⟨rfl, rfl, rfl, get_status_mark_disconnected _ uuid _⟩

theorem ensureBody_hit (env : Env) (w : World) (uuid : String)
    (h : (PoolManager.get_cached w.pool uuid).isSome = true) :
    ensureBody env w uuid = (w, .ok ()) := by
  unfold ensureBody
  simp [h]

theorem ensureBody_fresh (env : Env) (w : World) (uuid : String)
    (config : ConnectionConfig) (d : Driver) (otun : Option SshTunnel)
    (msg : String) (hm : env.metaConfig uuid = .ok config)
    (hc : create_driver env config = .ok (d, otun))
    (ht : env.testConnection d = .ok { success := true, message := msg })
    (hl : PoolState.lookup w.pool uuid = none) :
    ensureBody env w uuid =
      ({ pool := PoolState.insert w.pool uuid
           { driver := d, config := config,
             status := ConnectionStatus.Connected, last_error := none,
             ssh_tunnel := otun }
         driverBuilds := w.driverBuilds + 1
         tunnelBuilds := w.tunnelBuilds + (if otun.isSome then 1 else 0)
         opCalls := w.opCalls
         connectCalls := w.connectCalls + 1
         disconnects := w.disconnects }, .ok ()) := by
  unfold ensureBody
  have hcge : PoolManager.get_cached w.pool uuid = none := by
    simp [PoolManager.get_cached, hl]
  rw [hcge]
  simp only [Option.isSome_none, Bool.false_eq_true, if_false]
  simp [get_connection_config, hm,
    connect_fresh_success env w uuid config d otun msg hc ht hl]

/-- The inductive invariant for the concurrent `ensure_connection` race:
the lock discipline (nobody is in the critical section while the lock is
free, and never two at once), and the pool/counter state, which is either
still untouched (then nobody has finished) or holds an entry for the
identifier with exactly one driver (and `tcnt` tunnel) construction
performed. -/
def C8Inv (uuid : String) (db0 tb0 tcnt : Nat) (s : ConcState) : Prop :=
  (s.lockFree = true → s.pc0 ≠ TaskPc.critical ∧ s.pc1 ≠ TaskPc.critical) ∧
  ¬(s.pc0 = TaskPc.critical ∧ s.pc1 = TaskPc.critical) ∧
  ((PoolState.lookup s.world.pool uuid = none ∧ s.world.driverBuilds = db0 ∧
      s.world.tunnelBuilds = tb0 ∧ s.pc0 ≠ TaskPc.done ∧
      s.pc1 ≠ TaskPc.done) ∨
   ((PoolState.lookup s.world.pool uuid).isSome = true ∧
      s.world.driverBuilds = db0 + 1 ∧ s.world.tunnelBuilds = tb0 + tcnt))

theorem C8Inv_step (env : Env) (uuid : String) (config : ConnectionConfig)
    (d : Driver) (otun : Option SshTunnel) (msg : String) (db0 tb0 : Nat)
    (hm : env.metaConfig uuid = .ok config)
    (hc : create_driver env config = .ok (d, otun))
    (ht : env.testConnection d = .ok { success := true, message := msg })
    (s : ConcState)
    (hI : C8Inv uuid db0 tb0 (if otun.isSome then 1 else 0) s) (i : Bool) :
    C8Inv uuid db0 tb0 (if otun.isSome then 1 else 0)
      (stepTask env uuid s i) := by
  obtain ⟨h1, h2, h3⟩ := hI
  cases i
  · cases hpc : s.pc0 with
    | start =>
      by_cases hlf : s.lockFree
      · simp only [stepTask, hpc, hlf, if_true, Bool.false_eq_true]
        refine ⟨by simp, by simp [(h1 hlf).2], ?_⟩
        rcases h3 with ⟨ha, hb, hcc, hd, he⟩ | hR
        · exact Or.inl ⟨ha, hb, hcc, by simp, he⟩
        · exact Or.inr hR
      · simp only [stepTask, hpc, hlf, Bool.false_eq_true, if_false]
        exact ⟨h1, h2, h3⟩
    | critical =>
      simp only [stepTask, hpc, Bool.false_eq_true]
      rcases h3 with ⟨ha, hb, hcc, hd, he⟩ | ⟨ha, hb, hcc⟩
      · have hbody := ensureBody_fresh env s.world uuid config d otun msg
          hm hc ht ha
        refine ⟨?_, ?_, ?_⟩
        · intro _
          constructor
          · simp
          · simpa using fun hcrit => h2 ⟨hpc, hcrit⟩
        · simp
        · refine Or.inr ?_
          simp [hbody, hb, hcc]
      · have hbody := ensureBody_hit env s.world uuid
          (by simp [PoolManager.get_cached]; simpa using ha)
        refine ⟨?_, ?_, ?_⟩
        · intro _
          constructor
          · simp
          · simpa using fun hcrit => h2 ⟨hpc, hcrit⟩
        · simp
        · refine Or.inr ?_
          simp [hbody, ha, hb, hcc]
    | done =>
      simp only [stepTask, hpc]
      exact ⟨h1, h2, h3⟩
  · cases hpc : s.pc1 with
    | start =>
      by_cases hlf : s.lockFree
      · simp only [stepTask, hpc, hlf, if_true, Bool.false_eq_true]
        refine ⟨by simp, by simp [(h1 hlf).1], ?_⟩
        rcases h3 with ⟨ha, hb, hcc, hd, he⟩ | hR
        · exact Or.inl ⟨ha, hb, hcc, hd, by simp⟩
        · exact Or.inr hR
      · simp only [stepTask, hpc, hlf, Bool.false_eq_true, if_false]
        exact ⟨h1, h2, h3⟩
    | critical =>
      simp only [stepTask, hpc, Bool.false_eq_true]
      rcases h3 with ⟨ha, hb, hcc, hd, he⟩ | ⟨ha, hb, hcc⟩
      · have hbody := ensureBody_fresh env s.world uuid config d otun msg
          hm hc ht ha
        refine ⟨?_, ?_, ?_⟩
        · intro _
          constructor
          · simpa using fun hcrit => h2 ⟨hcrit, hpc⟩
          · simp
        · simp
        · refine Or.inr ?_
          simp [hbody, hb, hcc]
      · have hbody := ensureBody_hit env s.world uuid
          (by simp [PoolManager.get_cached]; simpa using ha)
        refine ⟨?_, ?_, ?_⟩
        · intro _
          constructor
          · simpa using fun hcrit => h2 ⟨hcrit, hpc⟩
          · simp
        · simp
        · refine Or.inr ?_
          simp [hbody, ha, hb, hcc]
    | done =>
      simp only [stepTask, hpc]
      exact ⟨h1, h2, h3⟩

theorem C8Inv_run (env : Env) (uuid : String) (config : ConnectionConfig)
    (d : Driver) (otun : Option SshTunnel) (msg : String) (db0 tb0 : Nat)
    (hm : env.metaConfig uuid = .ok config)
    (hc : create_driver env config = .ok (d, otun))
    (ht : env.testConnection d = .ok { success := true, message := msg })
    (sched : List Bool) (s : ConcState)
    (hI : C8Inv uuid db0 tb0 (if otun.isSome then 1 else 0) s) :
    C8Inv uuid db0 tb0 (if otun.isSome then 1 else 0)
      (runSchedule env uuid s sched) := by
  induction sched generalizing s with
  | nil => exact hI
  | cons i rest ih =>
    exact ih (stepTask env uuid s i)
      (C8Inv_step env uuid config d otun msg db0 tb0 hm hc ht s hI i)

/-! ## Concrete states used by the claim witnesses -/

/-- The driver built from `sqliteCfg`. -/
def dsV : Driver := Driver.sqlite { file_path := "/tmp/test.db" }

/-- The pool entry stored after a successful connect of `sqliteCfg`. -/
def entryConnV : PoolEntry :=
  { driver := dsV
    config := sqliteCfg
    status := ConnectionStatus.Connected
    last_error := none
    ssh_tunnel := none }

/-- The same entry after a failed data operation marked it disconnected. -/
def entryDiscV : PoolEntry :=
  { entryConnV with
    status := ConnectionStatus.Disconnected,
    last_error := some "boom" }

/-- World after `ensure_connection` from `world0` under `envTriv`. -/
def w1V : World :=
  { pool := [("a", entryConnV)], driverBuilds := 1, tunnelBuilds := 0,
    opCalls := 0, connectCalls := 1, disconnects := 0 }

/-- World after the first failed operation attempt. -/
def w2V : World :=
  { pool := [("a", entryDiscV)], driverBuilds := 1, tunnelBuilds := 0,
    opCalls := 1, connectCalls := 1, disconnects := 0 }

/-- World after the forced reconnect. -/
def w3V : World :=
  { pool := [("a", entryConnV)], driverBuilds := 2, tunnelBuilds := 0,
    opCalls := 1, connectCalls := 2, disconnects := 1 }

/-- World after the failed retry. -/
def w4V : World :=
  { pool := [("a", entryDiscV)], driverBuilds := 2, tunnelBuilds := 0,
    opCalls := 2, connectCalls := 2, disconnects := 1 }

/-- A sqlite configuration with SSH enabled and all SSH fields present. -/
def sshSqliteCfg : ConnectionConfig :=
  { sqliteCfg with
    ssh_enabled := true,
    ssh_host := some "bastion",
    ssh_user := some "user",
    host := some "db.internal" }

/-! ## The claims -/

/-- C2, as stated, is false: when `connect` fails inside `create_driver`
(here: an unsupported backend kind), the error is returned but no entry is
stored for the identifier — the pool map does not contain an entry for the
id, contradicting "the pool map still contains an entry for id". -/
theorem claim_C2_counterexample :
    (PoolManager.connect envTriv world0 "a" (blankConfig "nope")).2 =
        Except.error "Unsupported database type: nope" ∧
      PoolState.lookup
        (PoolManager.connect envTriv world0 "a" (blankConfig "nope")).1.pool
        "a" = none := by
  exact ⟨rfl, rfl⟩

/-- C2 (amended): whenever `connect(id, config)` fails because the freshly
created driver's `test_connection` reported failure, the pool map still
contains an entry for `id` whose status is `Disconnected` and whose
`last_error` is the failure message, and `connect` returns that error. -/
theorem claim_C2_failed_connect_stores_entry (env : Env) (w : World)
    (uuid : String) (config : ConnectionConfig) (d : Driver)
    (otun : Option SshTunnel) (msg : String)
    (hc : create_driver env config = .ok (d, otun))
    (ht : env.testConnection d = .ok { success := false, message := msg }) :
    (PoolManager.connect env w uuid config).2 = .error msg ∧
      PoolManager.get_status
        (PoolManager.connect env w uuid config).1.pool uuid =
        ConnectionStatus.Disconnected ∧
      PoolManager.get_last_error
        (PoolManager.connect env w uuid config).1.pool uuid = some msg := by
  have h := connect_test_failed env w uuid config d otun msg hc ht
  refine ⟨h.1, ?_, ?_⟩
  · simp [PoolManager.get_status, h.2]
  · simp [PoolManager.get_last_error, h.2]

theorem claim_C2_failed_connect_stores_entry_witness :
    (PoolManager.connect envTestFail world0 "a" sqliteCfg).2 =
        Except.error "auth failed" ∧
      PoolManager.get_status
        (PoolManager.connect envTestFail world0 "a" sqliteCfg).1.pool "a" =
        ConnectionStatus.Disconnected := by
  have h := claim_C2_failed_connect_stores_entry envTestFail world0 "a"
    sqliteCfg dsV none "auth failed" rfl rfl
  exact ⟨h.1, h.2.1⟩

/-- C3 claims that SSH enabled together with the sqlite backend yields a
configuration error.  The code does not: with all SSH fields present and a
working bootstrapper, `create_driver` builds the tunnel, then returns the
sqlite driver with the tunnel discarded (`None`) — no error, SSH silently
ignored.  This theorem evaluates the embedding at that failing input. -/
theorem claim_C3_ssh_sqlite_not_rejected :
    create_driver envSsh sshSqliteCfg =
      Except.ok (Driver.sqlite { file_path := "/tmp/test.db" }, none) := by
  exact rfl

/-- C4: immediately after a `connect(id, config)` call that returns
success, `get_status(id)` is `Connected` and `get_cached(id)` returns a
driver handle; immediately after `disconnect(id)`, `get_status(id)` is
`Disconnected` and `get_cached(id)` returns nothing. -/
theorem claim_C4_connect_disconnect_observations (env : Env) (w : World)
    (uuid : String) (config : ConnectionConfig) (d : Driver)
    (h : (PoolManager.connect env w uuid config).2 = .ok d) :
    (PoolManager.get_status
        (PoolManager.connect env w uuid config).1.pool uuid =
          ConnectionStatus.Connected ∧
      PoolManager.get_cached
        (PoolManager.connect env w uuid config).1.pool uuid = some d) ∧
    (∀ (w2 : World) (uuid2 : String),
      PoolManager.get_status (PoolManager.disconnect w2 uuid2).pool uuid2 =
          ConnectionStatus.Disconnected ∧
        PoolManager.get_cached (PoolManager.disconnect w2 uuid2).pool uuid2 =
          none) := by
  refine ⟨connect_ok_status env w uuid config d h, ?_⟩
  intro w2 uuid2
  constructor
  · simp [PoolManager.disconnect, PoolManager.get_status]
  · simp [PoolManager.disconnect, PoolManager.get_cached]

theorem claim_C4_connect_disconnect_observations_witness :
    PoolManager.get_status
        (PoolManager.connect envTriv world0 "a" sqliteCfg).1.pool "a" =
        ConnectionStatus.Connected ∧
      PoolManager.get_status
        (PoolManager.disconnect w1V "a").pool "a" =
        ConnectionStatus.Disconnected := by
  have h := claim_C4_connect_disconnect_observations envTriv world0 "a"
    sqliteCfg dsV rfl
  exact ⟨h.1.1, (h.2 w1V "a").1⟩

/-- C5: the WHERE clause of the generated UPDATE statement is the
AND-joined conjunction of one exact-match predicate per declared
primary-key column/value pair, and on the spec's concrete example
(columns id and name, values 1 and O’Brien, primary key id = 1) the WHERE
clause binds exactly the id and the SET clause doubles the apostrophe. -/
theorem claim_C5_update_builder_round_trip (db_type schema table : String)
    (pk_columns : List String) (pk_values : List Json)
    (updates : List UpdateField) (set_parts : List String)
    (h : buildSetParts db_type updates = .ok set_parts) :
    buildUpdateQuery db_type schema table pk_columns pk_values updates =
        .ok ("UPDATE " ++ table_ref db_type schema table ++ " SET " ++
          String.intercalate ", " set_parts ++ " WHERE " ++
          String.intercalate " AND " ((pk_columns.zip pk_values).map
            (fun cv => "\"" ++ escape_sql_identifier cv.1 ++ "\" = " ++
              format_sql_value cv.2))) ∧
      buildUpdateQuery "postgres" "public" "t" ["id"] [Json.num 1]
          [ { column := "id", value := Json.num 1, isRawSql := false },
            { column := "name", value := Json.str ("O" ++ squote ++ "Brien"),
              isRawSql := false } ] =
        .ok ("UPDATE \"public\".\"t\" SET \"id\" = 1, \"name\" = " ++
          squote ++ "O" ++ squote ++ squote ++ "Brien" ++ squote ++
          " WHERE \"id\" = 1") := by
  constructor
  · unfold buildUpdateQuery buildWhereClause
    rw [h]
  · rfl

theorem claim_C5_update_builder_round_trip_witness :
    buildUpdateQuery "postgres" "public" "t" ["id"] [Json.num 1]
        [ { column := "id", value := Json.num 1, isRawSql := false },
          { column := "name", value := Json.str ("O" ++ squote ++ "Brien"),
            isRawSql := false } ] =
      Except.ok ("UPDATE \"public\".\"t\" SET \"id\" = 1, \"name\" = " ++
        squote ++ "O" ++ squote ++ squote ++ "Brien" ++ squote ++
        " WHERE \"id\" = 1") := by
  exact (claim_C5_update_builder_round_trip "postgres" "public" "t" ["id"]
    [Json.num 1]
    [ { column := "id", value := Json.num 1, isRawSql := false },
      { column := "name", value := Json.str ("O" ++ squote ++ "Brien"),
        isRawSql := false } ]
    ["\"id\" = 1",
      "\"name\" = " ++ squote ++ "O" ++ squote ++ squote ++ "Brien" ++ squote]
    rfl).2

/-- C6: when the primary-key column list is empty or its length differs
from the value list, the row-update and row-delete commands return the
validation error with the world — pool map and every effect counter —
completely untouched: no SQL is built, no connection is touched, nothing
is retried. -/
theorem claim_C6_pk_validation_first (env : Env) (w : World)
    (uuid schema table : String) (pk_columns : List String)
    (pk_values : List Json) (updates : List UpdateField)
    (h : pk_columns = [] ∨ pk_columns.length ≠ pk_values.length) :
    pool_update_table_row env w uuid schema table pk_columns pk_values
        updates = (w, .error "Primary key columns and values must match") ∧
      pool_delete_table_row env w uuid schema table pk_columns pk_values =
        (w, .error "Primary key columns and values must match") := by
  have hcond : pk_columns.isEmpty = true ∨
      pk_columns.length ≠ pk_values.length := by
    rcases h with h | h
    · left; simp [h]
    · right; exact h
  constructor
  · unfold pool_update_table_row
    rw [if_pos hcond]
  · unfold pool_delete_table_row
    rw [if_pos hcond]

theorem claim_C6_pk_validation_first_witness :
    pool_update_table_row envTriv world0 "a" "public" "t" ["id"] []
        [ { column := "x", value := Json.num 1, isRawSql := false } ] =
      (world0, Except.error "Primary key columns and values must match") := by
  exact (claim_C6_pk_validation_first envTriv world0 "a" "public" "t" ["id"]
    [] [ { column := "x", value := Json.num 1, isRawSql := false } ]
    (Or.inr (by decide))).1

/-- C7: a health check on an identifier with no pool entry returns a
successful (non-erroring) result whose payload reports failure with the
"Connection not found" message, and the whole world — in particular the
pool map — is unchanged. -/
theorem claim_C7_health_check_not_found (env : Env) (w : World)
    (uuid : String) (h : PoolState.lookup w.pool uuid = none) :
    PoolManager.health_check env w uuid =
      (w, .ok { success := false, message := "Connection not found" }) := by
  unfold PoolManager.health_check
  simp [PoolManager.get_cached, h]

theorem claim_C7_health_check_not_found_witness :
    PoolManager.health_check envTriv world0 "a" =
      (world0,
        Except.ok { success := false, message := "Connection not found" }) :=
  claim_C7_health_check_not_found envTriv world0 "a" rfl

/-- C1: for every pooled data operation, when the first attempt against
the cached driver fails, the command performs exactly one forced
disconnect-and-reconnect (one additional `disconnect` and one additional
`connect`) and then retries the same operation exactly once (exactly two
driver-operation invocations in total after ensure-connected); when the
retry also fails, that second error is returned to the caller verbatim
and the identifier's final status is `Disconnected`. -/
theorem claim_C1_retry_exactly_once (env : Env) (w w1 w2 w3 w4 : World)
    (uuid op e1 e2 : String)
    (h1 : ensure_connection env w uuid = (w1, .ok ()))
    (h2 : PoolManager.runOperation env w1 uuid op = (w2, .error e1))
    (h3 : reconnect env w2 uuid = (w3, .ok ()))
    (h4 : PoolManager.runOperation env w3 uuid op = (w4, .error e2)) :
    pooledCommand env w uuid op = (w4, .error e2) ∧
      w4.opCalls = w1.opCalls + 2 ∧
      w4.connectCalls = w2.connectCalls + 1 ∧
      w4.disconnects = w2.disconnects + 1 ∧
      PoolManager.get_status w4.pool uuid = ConnectionStatus.Disconnected := by
  have hcached1 := ensure_ok_cached env w uuid w1 h1
  have hro1 := runOperation_error env w1 uuid op w2 e1 hcached1 h2
  have hre := reconnect_ok env w2 uuid w3 h3
  have hro2 := runOperation_error env w3 uuid op w4 e2 hre.1 h4
  refine ⟨?_, ?_, ?_, ?_, hro2.2.2.2⟩
  · unfold pooledCommand
    rw [h1]
    simp only []
    rw [h2]
    simp only []
    rw [h3]
    simp only []
    exact h4
  · rw [hro2.1, hre.2.2.2.2, hro1.1]
  · rw [hro2.2.1, hre.2.2.1]
  · rw [hro2.2.2.1, hre.2.2.2.1]

theorem claim_C1_retry_exactly_once_witness :
    pooledCommand envTriv world0 "a" "q" = (w4V, .error "boom") ∧
      w4V.opCalls = w1V.opCalls + 2 ∧
      w4V.connectCalls = w2V.connectCalls + 1 ∧
      PoolManager.get_status w4V.pool "a" = ConnectionStatus.Disconnected := by
  have h := claim_C1_retry_exactly_once envTriv world0 w1V w2V w3V w4V
    "a" "q" "boom" "boom" rfl rfl rfl rfl
  exact ⟨h.1, h.2.1, h.2.2.1, h.2.2.2.2⟩

/-- C9: for every identifier whose entry is present in the pool map,
`get_cached` returns the entry's driver handle regardless of the entry's
status; in particular, after a connect whose verification
`test_connection` reported failure, `get_cached` returns a handle while
the status is `Disconnected`, so `ensure_connection` (whose cache check
only tests presence) treats the identifier as already connected and
returns with the world unchanged, skipping any reconnect. -/
theorem claim_C9_cached_ignores_status (env : Env) (w : World)
    (uuid : String) (config : ConnectionConfig) (d : Driver)
    (otun : Option SshTunnel) (msg : String)
    (hc : create_driver env config = .ok (d, otun))
    (ht : env.testConnection d = .ok { success := false, message := msg }) :
    (∀ (p : PoolState) (u : String) (e : PoolEntry),
        PoolState.lookup p u = some e →
        PoolManager.get_cached p u = some e.driver) ∧
      PoolManager.get_cached
        (PoolManager.connect env w uuid config).1.pool uuid = some d ∧
      PoolManager.get_status
        (PoolManager.connect env w uuid config).1.pool uuid =
        ConnectionStatus.Disconnected ∧
      ensure_connection env (PoolManager.connect env w uuid config).1 uuid =
        ((PoolManager.connect env w uuid config).1, .ok ()) := by
  have h := connect_test_failed env w uuid config d otun msg hc ht
  refine ⟨?_, ?_, ?_, ?_⟩
  · intro p u e he
    simp [PoolManager.get_cached, he]
  · simp [PoolManager.get_cached, h.2]
  · simp [PoolManager.get_status, h.2]
  · unfold ensure_connection
    exact ensureBody_hit env _ uuid (by simp [PoolManager.get_cached, h.2])

theorem claim_C9_cached_ignores_status_witness :
    PoolManager.get_cached
        (PoolManager.connect envTestFail world0 "a" sqliteCfg).1.pool "a" =
        some dsV ∧
      PoolManager.get_status
        (PoolManager.connect envTestFail world0 "a" sqliteCfg).1.pool "a" =
        ConnectionStatus.Disconnected := by
  have h := claim_C9_cached_ignores_status envTestFail world0 "a" sqliteCfg
    dsV none "auth failed" rfl rfl
  exact ⟨h.2.1, h.2.2.1⟩

/-- C10: with SSH disabled, `create_driver` errors exactly when the
backend kind is unsupported or the kind is sqlite/sqlite3 with no file
path; for the network backends, absent host/port/database/username/
password never cause an error — the defaults are substituted (empty host,
port 5432, empty or "default" database and username, empty password). -/
theorem claim_C10_no_ssh_error_conditions :
    (∀ (env : Env) (cfg : ConnectionConfig), cfg.ssh_enabled = false →
      ((∃ e, create_driver env cfg = Except.error e) ↔
        (¬(cfg.db_type = "postgres" ∨ cfg.db_type = "postgresql" ∨
            cfg.db_type = "sqlite" ∨ cfg.db_type = "sqlite3" ∨
            cfg.db_type = "redis" ∨ cfg.db_type = "clickhouse") ∨
          ((cfg.db_type = "sqlite" ∨ cfg.db_type = "sqlite3") ∧
            cfg.file_path = none)))) ∧
    (∀ env : Env, create_driver env (blankConfig "postgres") =
      .ok (Driver.postgres ⟨"", 5432, "", "", "", false⟩, none)) ∧
    (∀ env : Env, create_driver env (blankConfig "redis") =
      .ok (Driver.redis ⟨"", 5432, none, none, false⟩, none)) ∧
    (∀ env : Env, create_driver env (blankConfig "clickhouse") =
      .ok (Driver.clickhouse ⟨"", 5432, "default", "default", "",
        ClickhouseProtocol.Http, false⟩, none)) := by
  refine ⟨?_, fun env => rfl, fun env => rfl, fun env => rfl⟩
  intro env cfg hssh
  unfold create_driver
  simp only [hssh, Bool.false_eq_true, if_false]
  by_cases h1 : cfg.db_type = "postgres" ∨ cfg.db_type = "postgresql"
  · rw [if_pos h1]
    constructor
    · rintro ⟨e, he⟩
      simp at he
    · rintro (hno | ⟨hsq, -⟩)
      · exact absurd (by tauto) hno
      · rcases h1 with h | h <;> rcases hsq with h2 | h2 <;>
          rw [h] at h2 <;> exact absurd h2 (by decide)
  · rw [if_neg h1]
    by_cases h2 : cfg.db_type = "sqlite" ∨ cfg.db_type = "sqlite3"
    · rw [if_pos h2]
      cases hfp : cfg.file_path with
      | none =>
        constructor
        · intro _
          exact Or.inr ⟨h2, rfl⟩
        · intro _
          exact ⟨"File path is required for SQLite connections", rfl⟩
      | some p =>
        constructor
        · rintro ⟨e, he⟩
          simp at he
        · rintro (hno | ⟨-, hnone⟩)
          · exact absurd (by tauto) hno
          · exact absurd hnone (by simp)
    · rw [if_neg h2]
      by_cases h3 : cfg.db_type = "redis"
      · rw [if_pos h3]
        constructor
        · rintro ⟨e, he⟩
          simp at he
        · rintro (hno | ⟨hsq, -⟩)
          · exact absurd (by tauto) hno
          · exact absurd hsq h2
      · rw [if_neg h3]
        by_cases h4 : cfg.db_type = "clickhouse"
        · rw [if_pos h4]
          constructor
          · rintro ⟨e, he⟩
            simp at he
          · rintro (hno | ⟨hsq, -⟩)
            · exact absurd (by tauto) hno
            · exact absurd hsq h2
        · rw [if_neg h4]
          constructor
          · intro _
            left
            rintro (h | h | h | h | h | h) <;> tauto
          · intro _
            exact ⟨"Unsupported database type: " ++ cfg.db_type, rfl⟩

theorem claim_C10_no_ssh_error_conditions_witness :
    ∃ e, create_driver envTriv (blankConfig "sqlite") = Except.error e := by
  exact (claim_C10_no_ssh_error_conditions.1 envTriv (blankConfig "sqlite")
    rfl).mpr (Or.inr ⟨Or.inl rfl, rfl⟩)

/-- C8: for a never-before-seen identifier, any interleaving of two
concurrent ensure-connected tasks results in at most one driver
construction overall, exactly one once both tasks have finished (and, when
the configuration carries a tunnel, exactly one tunnel construction), and
the per-identifier connect lock gives mutual exclusion: the two tasks are
never simultaneously inside the connect critical section. -/
theorem claim_C8_one_construction_under_race (env : Env) (uuid : String)
    (config : ConnectionConfig) (d : Driver) (otun : Option SshTunnel)
    (msg : String) (w0 : World)
    (hm : env.metaConfig uuid = .ok config)
    (hc : create_driver env config = .ok (d, otun))
    (ht : env.testConnection d = .ok { success := true, message := msg })
    (hl : PoolState.lookup w0.pool uuid = none) (sched : List Bool) :
    (runSchedule env uuid ⟨w0, true, .start, .start⟩
          sched).world.driverBuilds ≤ w0.driverBuilds + 1 ∧
      ((runSchedule env uuid ⟨w0, true, .start, .start⟩ sched).pc0 =
          TaskPc.done ∧
        (runSchedule env uuid ⟨w0, true, .start, .start⟩ sched).pc1 =
          TaskPc.done →
        (runSchedule env uuid ⟨w0, true, .start, .start⟩
            sched).world.driverBuilds = w0.driverBuilds + 1 ∧
          (runSchedule env uuid ⟨w0, true, .start, .start⟩
            sched).world.tunnelBuilds =
            w0.tunnelBuilds + (if otun.isSome then 1 else 0)) ∧
      ¬((runSchedule env uuid ⟨w0, true, .start, .start⟩ sched).pc0 =
          TaskPc.critical ∧
        (runSchedule env uuid ⟨w0, true, .start, .start⟩ sched).pc1 =
          TaskPc.critical) := by
  have h0 : C8Inv uuid w0.driverBuilds w0.tunnelBuilds
      (if otun.isSome then 1 else 0) ⟨w0, true, .start, .start⟩ := by
    exact ⟨fun _ => ⟨by simp, by simp⟩, by simp,
      Or.inl ⟨hl, rfl, rfl, by simp, by simp⟩⟩
  have h := C8Inv_run env uuid config d otun msg w0.driverBuilds
    w0.tunnelBuilds hm hc ht sched ⟨w0, true, .start, .start⟩ h0
  obtain ⟨-, hB, hC⟩ := h
  refine ⟨?_, ?_, hB⟩
  · rcases hC with ⟨-, hdb, -, -, -⟩ | ⟨-, hdb, -⟩
    · rw [hdb]; exact Nat.le_succ _
    · rw [hdb]
  · intro hdone
    rcases hC with ⟨-, -, -, hd0, -⟩ | ⟨-, hdb, htb⟩
    · exact absurd hdone.1 hd0
    · exact ⟨hdb, htb⟩

theorem claim_C8_one_construction_under_race_witness :
    (runSchedule envTriv "a"
        ⟨world0, true, TaskPc.start, TaskPc.start⟩
        [false, false, true, true]).world.driverBuilds =
      world0.driverBuilds + 1 := by
  have h := claim_C8_one_construction_under_race envTriv "a" sqliteCfg dsV
    none "ok" world0 rfl rfl rfl rfl [false, false, true, true]
  exact (h.2.1 ⟨rfl, rfl⟩).1
